import Mathlib

/-!
Verification of the Slack→Cloudinary bridge
(`slack_cloudinary_bridge_package.py`).

The module is embedded shallowly:

* the process environment (`os.environ`) is a function `String → Option String`;
  Python truthiness of `os.environ.get(v)` is `falsyEnv`: `None` and `""` are
  both falsy;
* the HTTP transport (`requests.get`) and the provider upload
  (`cloudinary.uploader.upload`) are oracles that either return a value or
  raise a typed exception `Exc` (Python dynamically distinguishes
  `requests.RequestException`, `ValueError`, `RuntimeError`, and other
  `Exception` classes, and the handlers in the source branch on
  exactly those types);
* outbound effects are recorded in an event trace `List Ev`: one event per
  `requests.get` call, per `cloudinary.config` call and per
  `cloudinary.uploader.upload` call;
* a Python function that can raise returns `Except Exc α`; `None` is `none`.
-/

/-- The process environment: `none` models an unset variable. -/
def Env : Type := String → Option String

/-- Python truthiness of `os.environ.get(v)`: falsy iff unset or empty. -/
def falsyEnv : Option String → Bool
  | none => true
  | some s => s.isEmpty

/-- Exceptions, tagged with the Python classes the handlers in the source
test for. -/
inductive Exc where
  | requestException (msg : String)
  | valueError (msg : String)
  | runtimeError (msg : String)
  | otherError (msg : String)
deriving DecidableEq

/-- Python `str(e)` on an exception. -/
def Exc.text : Exc → String
  | .requestException m => m
  | .valueError m => m
  | .runtimeError m => m
  | .otherError m => m

/-- The final HTTP response seen by `requests.get`. -/
structure HttpResponse where
  status : Nat
  content : List Nat
deriving DecidableEq

/-- Transport oracle for `requests.get(slack_url, headers)`. -/
def FetchOracle : Type := String → Except Exc HttpResponse

/-- Provider oracle for `cloudinary.uploader.upload(image_bytes)`: on normal
return, `none` models Python `None` and `some dict` models the response
dictionary (an association list of string fields). -/
def UploadOracle : Type := List Nat → Except Exc (Option (List (String × String)))

/-- Outbound-effect events of one call. -/
inductive Ev where
  | fetchReq (url : String)
  | cloudConfig
  | cloudUpload (payload : List Nat)
deriving DecidableEq

/-- Embedding of `download_slack_image` (lines 17–47): reads `BOT_TOKEN`; if
falsy, returns `b""` with no request; otherwise performs the GET, where
`response.raise_for_status()` raises `requests.HTTPError` (a
`RequestException`) for statuses ≥ 400; the `except requests.RequestException`
handler converts those failures to `b""`; any exception of another class
propagates. -/
def download_slack_image (env : Env) (fetch : FetchOracle) (slack_url : String) :
    Except Exc (List Nat) × List Ev :=
  if falsyEnv (env "BOT_TOKEN") then (.ok [], [])
  else
    match fetch slack_url with
    | .error (.requestException _) => (.ok [], [.fetchReq slack_url])
    | .error e => (.error e, [.fetchReq slack_url])
    | .ok resp =>
        if 400 ≤ resp.status then (.ok [], [.fetchReq slack_url])
        else (.ok resp.content, [.fetchReq slack_url])

/-- Embedding of `upload_to_cloudinary` (lines 50–97): reads the credential
triple; if any is falsy, returns `""` before configuring or uploading;
otherwise configures the provider and uploads, returning `""` when the
response is falsy (`None` or an empty dictionary), lacks the key
`"secure_url"`, or when any exception is raised (`except Exception`), and the
`secure_url` value otherwise. -/
def upload_to_cloudinary (env : Env) (uploader : UploadOracle)
    (image_bytes : List Nat) : String × List Ev :=
  let api_key := env "CLOUDINARY_API_KEY"
  let api_secret := env "CLOUDINARY_API_SECRET"
  let cloud_name := env "CLOUDINARY_CLOUD_NAME"
  if falsyEnv api_key || falsyEnv api_secret || falsyEnv cloud_name then
    ("", [])
  else
    let evs : List Ev := [.cloudConfig, .cloudUpload image_bytes]
    match uploader image_bytes with
    | .error _ => ("", evs)
    | .ok none => ("", evs)
    | .ok (some dict) =>
        if dict.isEmpty then ("", evs)
        else
          match dict.lookup "secure_url" with
          | none => ("", evs)
          | some u => (u, evs)

/-- Embedding of `check_env_vars` (lines 100–106): returns `None` when every
listed variable is truthy, and otherwise the message naming the missing ones,
comma-joined in list order. -/
def check_env_vars (env : Env) (vars : List String) : Option String :=
  let missing := vars.filter (fun v => falsyEnv (env v))
  if missing.isEmpty then none
  else some ("Missing required environment variables: " ++
    String.intercalate ", " missing)

/-- The four names `upload_slack_image` passes to `check_env_vars`. -/
def requiredVars : List String :=
  ["BOT_TOKEN", "CLOUDINARY_API_KEY", "CLOUDINARY_API_SECRET",
    "CLOUDINARY_CLOUD_NAME"]

/-- Embedding of `upload_slack_image` (lines 108–155): guard with
`check_env_vars` and return its message on failure; then run the
fetch and the upload inside `try`; `except ValueError: pass` and
`except RuntimeError: pass` fall off the function body and return Python
`None` (here `none`); `except Exception` returns the "unexpected error"
message. The result pairs the returned value with the trace of outbound
effects. -/
def upload_slack_image (env : Env) (fetch : FetchOracle) (uploader : UploadOracle)
    (slack_url : String) : Option String × List Ev :=
  match check_env_vars env requiredVars with
  | some env_error => (some env_error, [])
  | none =>
      match download_slack_image env fetch slack_url with
      | (.error (.valueError _), evs) => (none, evs)
      | (.error (.runtimeError _), evs) => (none, evs)
      | (.error e, evs) =>
          (some ("An unexpected error occurred: " ++ e.text), evs)
      | (.ok image_bytes, evs) =>
          let r := upload_to_cloudinary env uploader image_bytes
          (some r.1, evs ++ r.2)

/-- Modelled from the spec: a "descriptive publish-failure message" is,
at the very least, non-empty text (§7 of the spec requires "a short,
specific, human-readable message identifying which stage failed and why"). -/
def specDescriptiveMessage (s : String) : Bool :=
  !s.isEmpty

/-! ### Concrete fixtures used by witnesses and counterexamples -/

/-- Environment with every variable set to a non-empty value. -/
def envAll : Env := fun _ => some "tok"

/-- Environment with `BOT_TOKEN` unset and everything else set. -/
def envNoToken : Env := fun v => if v = "BOT_TOKEN" then none else some "tok"

/-- Environment with `CLOUDINARY_API_KEY` set to the empty string. -/
def envNoCloudKey : Env :=
  fun v => if v = "CLOUDINARY_API_KEY" then some "" else some "tok"

/-- Transport answering 200 OK with a PNG-like payload. -/
def fetchPng : FetchOracle := fun _ => .ok ⟨200, [137, 80, 78, 71]⟩

/-- Transport answering 404 with a short body. -/
def fetch404 : FetchOracle := fun _ => .ok ⟨404, [110, 111]⟩

/-- Transport raising a `ValueError` (an exception class that
`download_slack_image` does not catch). -/
def fetchRaisesValueError : FetchOracle := fun _ => .error (.valueError "boom")

/-- Provider answering with a response that carries `secure_url`. -/
def uploadDemo : UploadOracle :=
  fun _ => .ok (some [("secure_url",
    "https://res.cloudinary.com/demo/image/upload/v1/x.png")])

/-- Provider answering with a response that lacks `secure_url`. -/
def uploadNoUrl : UploadOracle := fun _ => .ok (some [("public_id", "abc")])

/-- Provider raising on the upload call, as the real provider does on an
empty payload. -/
def uploadEmptyFileError : UploadOracle := fun _ => .error (.otherError "Empty file")

/-! ### Helper lemmas about the credential guard -/

/-- The guard answers `None` exactly when every listed variable is truthy. -/
theorem check_env_vars_eq_none_iff (env : Env) (vars : List String) :
    check_env_vars env vars = none ↔ ∀ v ∈ vars, falsyEnv (env v) = false := by
  by_cases h : (vars.filter (fun v => falsyEnv (env v))).isEmpty = true
  · simp only [check_env_vars, if_pos h, true_iff]
    simp only [List.isEmpty_iff, List.filter_eq_nil_iff] at h
    intro v hv
    simpa using h v hv
  · simp only [check_env_vars, if_neg h]
    simp only [List.isEmpty_iff, List.filter_eq_nil_iff] at h
    constructor
    · intro hc; cases hc
    · intro hall
      exact absurd (fun v hv => by simp [hall v hv]) h

/-- When some listed variable is falsy, the guard answers the message that
joins the missing names in list order. -/
theorem check_env_vars_eq_some (env : Env) (vars : List String)
    (h : vars.filter (fun v => falsyEnv (env v)) ≠ []) :
    check_env_vars env vars =
      some ("Missing required environment variables: " ++
        String.intercalate ", " (vars.filter (fun v => falsyEnv (env v)))) := by
  simp only [check_env_vars]
  rw [if_neg]
  simpa [List.isEmpty_iff] using h

/-! ### The claims -/

/-- C1: if any of the four required credential names (`BOT_TOKEN`,
`CLOUDINARY_API_KEY`, `CLOUDINARY_API_SECRET`, `CLOUDINARY_CLOUD_NAME`) is
absent or empty in the environment, `upload_slack_image` returns the
configuration-error message listing exactly the missing names, and its
effect trace is empty: neither the fetch nor the upload is started. -/
theorem C1_config_guard (env : Env) (fetch : FetchOracle) (uploader : UploadOracle)
    (slack_url : String) (h : ∃ v ∈ requiredVars, falsyEnv (env v) = true) :
    upload_slack_image env fetch uploader slack_url =
      (some ("Missing required environment variables: " ++
        String.intercalate ", "
          (requiredVars.filter (fun v => falsyEnv (env v)))), []) := by
  obtain ⟨v, hv, hfal⟩ := h
  have hne : requiredVars.filter (fun v => falsyEnv (env v)) ≠ [] := by
    intro hnil
    rw [List.filter_eq_nil_iff] at hnil
    exact absurd hfal (by simpa using hnil v hv)
  have hsome := check_env_vars_eq_some env requiredVars hne
  simp [upload_slack_image, hsome]

/-- Witness for C1 at a concrete input: `BOT_TOKEN` unset. -/
theorem C1_config_guard_witness :
    (∃ v ∈ requiredVars, falsyEnv (envNoToken v) = true) ∧
    upload_slack_image envNoToken fetchPng uploadDemo "https://files.slack.com/a.png" =
      (some ("Missing required environment variables: " ++
        String.intercalate ", "
          (requiredVars.filter (fun v => falsyEnv (envNoToken v)))), []) :=
  ⟨by decide, C1_config_guard envNoToken fetchPng uploadDemo _ (by decide)⟩

/-- C2 (code-bug evidence): with all credentials set and the transport
answering 404, the fetch step swallows the failure into `b""`, the publish
step IS invoked — the trace contains a provider upload of the empty
payload — and the call returns `some ""` (the publish-failure sentinel),
not a fetch-error message. The claim states that on a non-success status
the call returns a FetchError result and the publish step is never
invoked. -/
theorem C2_fetch_404_publishes_anyway :
    upload_slack_image envAll fetch404 uploadEmptyFileError
      "https://files.slack.com/a.png" =
      (some "", [.fetchReq "https://files.slack.com/a.png", .cloudConfig,
        .cloudUpload []]) ∧
    Ev.cloudUpload [] ∈
      (upload_slack_image envAll fetch404 uploadEmptyFileError
        "https://files.slack.com/a.png").2 :=
  ⟨by decide, by decide⟩

/-- C3: happy path — all four credentials set, the fetch returns a 2xx
status with some payload, and the provider response is a mapping containing
a `secure_url` field; then `upload_slack_image` returns exactly that
secure-URL string. -/
theorem C3_happy_path (env : Env) (fetch : FetchOracle) (uploader : UploadOracle)
    (slack_url : String) (resp : HttpResponse) (dict : List (String × String))
    (u : String)
    (hcreds : ∀ v ∈ requiredVars, falsyEnv (env v) = false)
    (hfetch : fetch slack_url = .ok resp)
    (h2xx : 200 ≤ resp.status ∧ resp.status < 300)
    (hupload : uploader resp.content = .ok (some dict))
    (hurl : dict.lookup "secure_url" = some u) :
    (upload_slack_image env fetch uploader slack_url).1 = some u := by
  have hbt := hcreds "BOT_TOKEN" (by simp [requiredVars])
  have hk := hcreds "CLOUDINARY_API_KEY" (by simp [requiredVars])
  have hs := hcreds "CLOUDINARY_API_SECRET" (by simp [requiredVars])
  have hc := hcreds "CLOUDINARY_CLOUD_NAME" (by simp [requiredVars])
  have hcheck := (check_env_vars_eq_none_iff env requiredVars).mpr hcreds
  have hnot400 : ¬ 400 ≤ resp.status := by omega
  have hdict : ¬ dict.isEmpty = true := by
    intro he
    rw [List.isEmpty_iff] at he
    subst he
    simp [List.lookup] at hurl
  have hdl : download_slack_image env fetch slack_url =
      (.ok resp.content, [.fetchReq slack_url]) := by
    simp [download_slack_image, hbt, hfetch, hnot400]
  have hup : upload_to_cloudinary env uploader resp.content =
      (u, [.cloudConfig, .cloudUpload resp.content]) := by
    simp [upload_to_cloudinary, hk, hs, hc, hupload, hdict, hurl]
  simp [upload_slack_image, hcheck, hdl, hup]

/-- Witness for C3 at a concrete input: a 200 response with a PNG-like body
and a provider response carrying the demo secure URL. -/
theorem C3_happy_path_witness :
    ((∀ v ∈ requiredVars, falsyEnv (envAll v) = false) ∧
      fetchPng "https://files.slack.com/a.png" =
        .ok ⟨200, [137, 80, 78, 71]⟩ ∧
      uploadDemo [137, 80, 78, 71] = .ok (some [("secure_url",
        "https://res.cloudinary.com/demo/image/upload/v1/x.png")])) ∧
    (upload_slack_image envAll fetchPng uploadDemo
      "https://files.slack.com/a.png").1 =
      some "https://res.cloudinary.com/demo/image/upload/v1/x.png" :=
  ⟨⟨by decide, rfl, rfl⟩,
    C3_happy_path envAll fetchPng uploadDemo "https://files.slack.com/a.png"
      ⟨200, [137, 80, 78, 71]⟩
      [("secure_url", "https://res.cloudinary.com/demo/image/upload/v1/x.png")]
      "https://res.cloudinary.com/demo/image/upload/v1/x.png"
      (by decide) rfl ⟨by decide, by decide⟩ rfl rfl⟩

/-- C4 (counterexample): with credentials set, a successful fetch, and a
provider response lacking `secure_url`, the call returns `some ""` — the
empty string, which is not a descriptive publish-failure message. -/
theorem C4_counterexample :
    (upload_slack_image envAll fetchPng uploadNoUrl
      "https://files.slack.com/a.png").1 = some "" ∧
    specDescriptiveMessage "" = false :=
  ⟨by decide, by decide⟩

/-- C4 (amended): when the publish step runs and the provider response is
absent or lacks the `secure_url` field, `upload_slack_image` returns the
empty string — the publish-failure sentinel of the code, distinct from any
(non-empty) success URL but not a descriptive message. -/
theorem C4_publish_failure_empty_string (env : Env) (fetch : FetchOracle)
    (uploader : UploadOracle) (slack_url : String) (bs : List Nat) (evs : List Ev)
    (r : Option (List (String × String)))
    (hcreds : ∀ v ∈ requiredVars, falsyEnv (env v) = false)
    (hdl : download_slack_image env fetch slack_url = (.ok bs, evs))
    (hupload : uploader bs = .ok r)
    (hnourl : r = none ∨ ∃ dict, r = some dict ∧ dict.lookup "secure_url" = none) :
    (upload_slack_image env fetch uploader slack_url).1 = some "" := by
  have hk := hcreds "CLOUDINARY_API_KEY" (by simp [requiredVars])
  have hs := hcreds "CLOUDINARY_API_SECRET" (by simp [requiredVars])
  have hc := hcreds "CLOUDINARY_CLOUD_NAME" (by simp [requiredVars])
  have hcheck := (check_env_vars_eq_none_iff env requiredVars).mpr hcreds
  have hup1 : (upload_to_cloudinary env uploader bs).1 = "" := by
    rcases hnourl with h | ⟨dict, hd, hl⟩
    · subst h
      simp [upload_to_cloudinary, hk, hs, hc, hupload]
    · subst hd
      by_cases he : dict.isEmpty = true
      · simp [upload_to_cloudinary, hk, hs, hc, hupload, he]
      · simp [upload_to_cloudinary, hk, hs, hc, hupload, he, hl]
  simp [upload_slack_image, hcheck, hdl, hup1]

/-- Witness for the amended C4 at a concrete input. -/
theorem C4_publish_failure_empty_string_witness :
    (upload_slack_image envAll fetchPng uploadNoUrl
      "https://files.slack.com/a.png").1 = some "" :=
  C4_publish_failure_empty_string envAll fetchPng uploadNoUrl
    "https://files.slack.com/a.png" [137, 80, 78, 71]
    [.fetchReq "https://files.slack.com/a.png"] (some [("public_id", "abc")])
    (by decide) rfl rfl (Or.inr ⟨[("public_id", "abc")], rfl, rfl⟩)

/-- C5 (code-bug evidence): with all credentials set, a `ValueError` raised
during the fetch step propagates to the orchestrator, whose
`except ValueError: pass` handler falls off the function body: the call
returns Python `None` — not an explicit success-or-failure result. The
claim states the call never returns silently with no value. -/
theorem C5_value_error_returns_none :
    upload_slack_image envAll fetchRaisesValueError uploadDemo
      "https://files.slack.com/a.png" =
      (none, [.fetchReq "https://files.slack.com/a.png"]) := by
  decide

/-- C6: round-trip dataflow — whenever the credential check passes and the
fetch step returns a payload, the publish step is invoked with exactly that
payload: the upload event in the trace carries bytes identical to the fetch
result, with no transformation in between. -/
theorem C6_round_trip (env : Env) (fetch : FetchOracle) (uploader : UploadOracle)
    (slack_url : String) (bs : List Nat) (evs : List Ev)
    (hcreds : ∀ v ∈ requiredVars, falsyEnv (env v) = false)
    (hdl : download_slack_image env fetch slack_url = (.ok bs, evs)) :
    Ev.cloudUpload bs ∈ (upload_slack_image env fetch uploader slack_url).2 := by
  have hk := hcreds "CLOUDINARY_API_KEY" (by simp [requiredVars])
  have hs := hcreds "CLOUDINARY_API_SECRET" (by simp [requiredVars])
  have hc := hcreds "CLOUDINARY_CLOUD_NAME" (by simp [requiredVars])
  have hcheck := (check_env_vars_eq_none_iff env requiredVars).mpr hcreds
  have hup2 : (upload_to_cloudinary env uploader bs).2 =
      [Ev.cloudConfig, Ev.cloudUpload bs] := by
    cases hub : uploader bs with
    | error e => simp [upload_to_cloudinary, hk, hs, hc, hub]
    | ok r =>
        cases r with
        | none => simp [upload_to_cloudinary, hk, hs, hc, hub]
        | some dict =>
            by_cases he : dict.isEmpty = true
            · simp [upload_to_cloudinary, hk, hs, hc, hub, he]
            · cases hl : dict.lookup "secure_url" with
              | none => simp [upload_to_cloudinary, hk, hs, hc, hub, he, hl]
              | some u => simp [upload_to_cloudinary, hk, hs, hc, hub, he, hl]
  simp [upload_slack_image, hcheck, hdl, hup2]

/-- Witness for C6 at a concrete input. -/
theorem C6_round_trip_witness :
    Ev.cloudUpload [137, 80, 78, 71] ∈
      (upload_slack_image envAll fetchPng uploadDemo
        "https://files.slack.com/a.png").2 :=
  C6_round_trip envAll fetchPng uploadDemo "https://files.slack.com/a.png"
    [137, 80, 78, 71] [.fetchReq "https://files.slack.com/a.png"]
    (by decide) rfl

/-- C7 (counterexample): with `BOT_TOKEN` unset, a duplicated input list
makes the guard name the missing variable twice — not each exactly once as
the claim states for every list. -/
theorem C7_counterexample :
    check_env_vars envNoToken ["BOT_TOKEN", "BOT_TOKEN"] =
      some "Missing required environment variables: BOT_TOKEN, BOT_TOKEN" ∧
    (["BOT_TOKEN", "BOT_TOKEN"].filter
      (fun v => falsyEnv (envNoToken v))).count "BOT_TOKEN" = 2 :=
  ⟨by decide, by decide⟩

/-- C7 (amended): `check_env_vars` returns the absence signal `None` iff
every listed name is set to a non-empty value; otherwise it returns the
message naming, in list order, one occurrence per missing occurrence of the
input list — hence each missing name exactly once whenever the input list is
duplicate-free. The function is pure. -/
theorem C7_check_env_vars_contract (env : Env) (vars : List String) :
    (check_env_vars env vars = none ↔ ∀ v ∈ vars, falsyEnv (env v) = false) ∧
    (vars.filter (fun v => falsyEnv (env v)) ≠ [] →
      check_env_vars env vars =
        some ("Missing required environment variables: " ++
          String.intercalate ", " (vars.filter (fun v => falsyEnv (env v))))) ∧
    (vars.Nodup → (vars.filter (fun v => falsyEnv (env v))).Nodup) :=
  ⟨check_env_vars_eq_none_iff env vars,
    fun h => check_env_vars_eq_some env vars h,
    fun h => h.filter _⟩

/-- Witness for the amended C7 at a concrete input. -/
theorem C7_check_env_vars_contract_witness :
    check_env_vars envNoToken ["BOT_TOKEN"] =
      some "Missing required environment variables: BOT_TOKEN" := by
  have h := (C7_check_env_vars_contract envNoToken ["BOT_TOKEN"]).2.1 (by decide)
  simpa using h

/-- C8: defensive layer check — if any of `CLOUDINARY_API_KEY`,
`CLOUDINARY_API_SECRET`, `CLOUDINARY_CLOUD_NAME` is absent or empty,
`upload_to_cloudinary` returns its failure value `""` with an empty trace:
no provider configuration and no upload call, regardless of what the
orchestrator checked. -/
theorem C8_defensive_creds (env : Env) (uploader : UploadOracle)
    (image_bytes : List Nat)
    (h : falsyEnv (env "CLOUDINARY_API_KEY") = true ∨
      falsyEnv (env "CLOUDINARY_API_SECRET") = true ∨
      falsyEnv (env "CLOUDINARY_CLOUD_NAME") = true) :
    upload_to_cloudinary env uploader image_bytes = ("", []) := by
  rcases h with h | h | h <;> simp [upload_to_cloudinary, h]

/-- Witness for C8 at a concrete input: `CLOUDINARY_API_KEY` empty. -/
theorem C8_defensive_creds_witness :
    (falsyEnv (envNoCloudKey "CLOUDINARY_API_KEY") = true ∨
      falsyEnv (envNoCloudKey "CLOUDINARY_API_SECRET") = true ∨
      falsyEnv (envNoCloudKey "CLOUDINARY_CLOUD_NAME") = true) ∧
    upload_to_cloudinary envNoCloudKey uploadDemo [1, 2, 3] = ("", []) :=
  ⟨Or.inl (by decide),
    C8_defensive_creds envNoCloudKey uploadDemo [1, 2, 3] (Or.inl (by decide))⟩

/-- C9 (counterexample): `download_slack_image` catches only
`requests.RequestException`; a `ValueError` raised by the transport
propagates to the caller instead of being converted to `b""`, refuting the
claim that the function never propagates an exception. -/
theorem C9_counterexample :
    (download_slack_image envAll fetchRaisesValueError
      "https://files.slack.com/a.png").1 = .error (.valueError "boom") := rfl

/-- C9 (amended): when `BOT_TOKEN` is absent or empty the function returns
`b""` with no network request; when the transport raises a
`RequestException` or answers with a status of 400 or more it returns
`b""`; a response below 400 returns its body — so a caught failure is
indistinguishable, at the return value alone, from a successful response
with an empty body. Exceptions of other classes propagate (see the
counterexample). -/
theorem C9_download_behaviour (env : Env) (fetch : FetchOracle)
    (slack_url : String) :
    (falsyEnv (env "BOT_TOKEN") = true →
      download_slack_image env fetch slack_url = (.ok [], [])) ∧
    (falsyEnv (env "BOT_TOKEN") = false →
      (∀ msg, fetch slack_url = .error (.requestException msg) →
        download_slack_image env fetch slack_url =
          (.ok [], [.fetchReq slack_url])) ∧
      (∀ resp, fetch slack_url = .ok resp → 400 ≤ resp.status →
        download_slack_image env fetch slack_url =
          (.ok [], [.fetchReq slack_url])) ∧
      (∀ resp, fetch slack_url = .ok resp → resp.status < 400 →
        download_slack_image env fetch slack_url =
          (.ok resp.content, [.fetchReq slack_url]))) := by
  refine ⟨fun h => by simp [download_slack_image, h], fun h => ⟨?_, ?_, ?_⟩⟩
  · intro msg hm
    simp [download_slack_image, h, hm]
  · intro resp hr h4
    simp [download_slack_image, h, hr, h4]
  · intro resp hr h4
    have hn : ¬ 400 ≤ resp.status := by omega
    simp [download_slack_image, h, hr, hn]

/-- Witness for the amended C9 at a concrete input: a 404 answer is
converted to `b""`. -/
theorem C9_download_behaviour_witness :
    download_slack_image envAll fetch404 "https://files.slack.com/a.png" =
      (.ok [], [.fetchReq "https://files.slack.com/a.png"]) :=
  ((C9_download_behaviour envAll fetch404 "https://files.slack.com/a.png").2
    (by decide)).2.1 ⟨404, [110, 111]⟩ rfl (by decide)

/-- C10: `upload_to_cloudinary` never propagates an exception to its caller
(its embedding is a total function into `String`): an exception from the
provider call, a missing credential, a `None` response and a response
lacking `secure_url` all collapse to the same return value `""`, which is
also a syntactically valid (empty) string. -/
theorem C10_upload_collapses_failures (env : Env) (uploader : UploadOracle)
    (image_bytes : List Nat) :
    (∀ e, uploader image_bytes = .error e →
      (upload_to_cloudinary env uploader image_bytes).1 = "") ∧
    ((falsyEnv (env "CLOUDINARY_API_KEY") ||
        falsyEnv (env "CLOUDINARY_API_SECRET") ||
        falsyEnv (env "CLOUDINARY_CLOUD_NAME")) = true →
      (upload_to_cloudinary env uploader image_bytes).1 = "") ∧
    (uploader image_bytes = .ok none →
      (upload_to_cloudinary env uploader image_bytes).1 = "") ∧
    (∀ dict, uploader image_bytes = .ok (some dict) →
      dict.lookup "secure_url" = none →
      (upload_to_cloudinary env uploader image_bytes).1 = "") := by
  by_cases hcond : (falsyEnv (env "CLOUDINARY_API_KEY") ||
      falsyEnv (env "CLOUDINARY_API_SECRET") ||
      falsyEnv (env "CLOUDINARY_CLOUD_NAME")) = true
  · exact ⟨fun e _ => by simp [upload_to_cloudinary, hcond],
      fun _ => by simp [upload_to_cloudinary, hcond],
      fun _ => by simp [upload_to_cloudinary, hcond],
      fun dict _ _ => by simp [upload_to_cloudinary, hcond]⟩
  · refine ⟨?_, ?_, ?_, ?_⟩
    · intro e he
      simp [upload_to_cloudinary, hcond, he]
    · intro h
      exact absurd h hcond
    · intro he
      simp [upload_to_cloudinary, hcond, he]
    · intro dict hd hl
      by_cases hemp : dict.isEmpty = true
      · simp [upload_to_cloudinary, hcond, hd, hemp]
      · simp [upload_to_cloudinary, hcond, hd, hemp, hl]

/-- Witness for C10 at a concrete input: the provider raises and the call
returns the empty string. -/
theorem C10_upload_collapses_failures_witness :
    (upload_to_cloudinary envAll uploadEmptyFileError [1, 2, 3]).1 = "" :=
  (C10_upload_collapses_failures envAll uploadEmptyFileError [1, 2, 3]).1
    (.otherError "Empty file") rfl
